import Mathlib

/-!
# Verification of `enats` (src/embedded_nats.go)

The package wraps three external libraries: `freeport` (a free-port allocator),
`gnatsd` (the embeddable NATS server) and `nats` (the client connector).  The
harness code is embedded with explicit state passing.  Every call the harness
makes into a library is recorded as an `Event`; what the library answers is read
from a `World`, one field per library entry point.  Library calls are modelled as
returning: what happens inside a library (for instance when it is handed a nil
pointer) is outside this development.
-/

/-! ## Go values -/

/-- A Go `error` value, identified by the text its `Error()` method returns. -/
structure GoError where
  Error : String
deriving DecidableEq, Repr

/-- `gnatsd.Options`, restricted to the two fields the package sets; every other
field keeps its zero value. -/
structure gnatsd.Options where
  Host : String
  Port : Int
deriving DecidableEq, Repr

/-- A `gnatsd.Server` object, identified by an address.  A `*gnatsd.Server` is an
`Option gnatsd.Server`, with `none` the nil pointer. -/
structure gnatsd.Server where
  addr : Nat
deriving DecidableEq, Repr

/-- A `nats.Conn` object, identified by an address.  A `*nats.Conn` is an
`Option nats.Conn`, with `none` the nil pointer. -/
structure nats.Conn where
  addr : Nat
deriving DecidableEq, Repr

/-! ## `time` -/

/-- `time.Nanosecond`: a `time.Duration` counts nanoseconds. -/
def time.Nanosecond : Int := 1

/-- `time.Microsecond = 1000 * Nanosecond`. -/
def time.Microsecond : Int := 1000 * time.Nanosecond

/-- `time.Millisecond = 1000 * Microsecond`. -/
def time.Millisecond : Int := 1000 * time.Microsecond

/-- `time.Second = 1000 * Millisecond`. -/
def time.Second : Int := 1000 * time.Millisecond

/-- `time.Minute = 60 * Second`. -/
def time.Minute : Int := 60 * time.Second

/-! ## `fmt` -/

/-- An operand handed to a `fmt` formatting function.  The package passes an `int`
(the port) and an `error`. -/
inductive fmt.Arg where
  | int (i : Int)
  | error (e : GoError)
deriving DecidableEq, Repr

/-- Base 10 rendering of an integer, with a leading minus sign when negative. -/
def decimal (i : Int) : String :=
  if i < 0 then "-" ++ Nat.repr i.natAbs else Nat.repr i.toNat

/-- How one operand is printed.  Only the verbs the package uses are modelled:
`%d` and `%v` print an `int` in base 10, `%v` prints an `error` by its `Error()`
text. -/
def fmt.printArg (_verb : Char) : fmt.Arg → List Char
  | .int i => (decimal i).toList
  | .error e => e.Error.toList

/-- The formatting loop of `fmt.Sprintf` over the characters of the format.
Plain characters are copied, `%%` prints a percent sign, any other verb consumes
the next operand; a verb with no operand left prints `%!v(MISSING)` and a format
ending in a lone percent sign prints `%!(NOVERB)`, as Go does.  Flags, widths and
the note Go appends for unused operands are not modelled: no format in the
package uses them. -/
def fmt.doPrintf : List Char → List fmt.Arg → List Char
  | [], _ => []
  | c :: rest, args =>
    if c = '%' then
      match rest with
      | [] => "%!(NOVERB)".toList
      | verb :: rest2 =>
        if verb = '%' then '%' :: fmt.doPrintf rest2 args
        else
          match args with
          | [] => "%!".toList ++ verb :: "(MISSING)".toList ++ fmt.doPrintf rest2 []
          | a :: args2 => fmt.printArg verb a ++ fmt.doPrintf rest2 args2
    else c :: fmt.doPrintf rest args

/-- `fmt.Sprintf(format, a...)`. -/
def fmt.Sprintf (format : String) (a : List fmt.Arg) : String :=
  String.mk (fmt.doPrintf format.toList a)

/-- `fmt.Errorf(format, a...)`: the error whose text is the formatted string (no
format in the package uses `%w`). -/
def fmt.Errorf (format : String) (a : List fmt.Arg) : GoError :=
  { Error := fmt.Sprintf format a }

/-! ## Library calls and their answers -/

/-- One call from the package into a library, with its arguments.  `Go` is the
`go` statement of `Start`, which launches the goroutine running `gnatsd.Run` on
the given server; `Run` and `Printf` are what that goroutine itself does. -/
inductive Event where
  | GetFreePort
  | New (opts : gnatsd.Options)
  | Go (server : Option gnatsd.Server)
  | Run (server : Option gnatsd.Server)
  | Printf (text : String)
  | ReadyForConnections (server : Option gnatsd.Server) (dur : Int)
  | Connect (url : String)
  | Close (conn : Option nats.Conn)
  | Shutdown (server : Option gnatsd.Server)
deriving DecidableEq, Repr

/-- Whether the event is the launch of the server goroutine. -/
def Event.isGo : Event → Bool
  | .Go _ => true
  | _ => false

/-- Whether the event is a readiness probe. -/
def Event.isProbe : Event → Bool
  | .ReadyForConnections _ _ => true
  | _ => false

/-- Whether the event is a client connect. -/
def Event.isConnect : Event → Bool
  | .Connect _ => true
  | _ => false

/-- Whether the event is a call of `gnatsd.Run`. -/
def Event.isRun : Event → Bool
  | .Run _ => true
  | _ => false

/-- What the libraries answer during one call of a package function.
`freeport.GetFreePort` returns a port or a non-nil error and `nats.Connect` a
non-nil handle or a non-nil error (the code looks at the value only when the error
is nil); `gnatsd.New` returns a server pointer, `gnatsd.Run` an error or nil, and
`(*Server).ReadyForConnections` a boolean. -/
structure World where
  GetFreePort : Except GoError Int
  New : gnatsd.Options → Option gnatsd.Server
  Run : Option gnatsd.Server → Option GoError
  ReadyForConnections : Option gnatsd.Server → Int → Bool
  Connect : String → Except GoError nats.Conn

/-! ## The package -/

/-- The struct `EmbeddedNATS` (lines 31-36). -/
structure EmbeddedNATS where
  server : Option gnatsd.Server
  Port : Int
  Conn : Option nats.Conn
deriving DecidableEq, Repr

/-- What `NewEmbeddedNATS` hands back: its two return values (each `none` when
nil) and the library calls it made, in order. -/
structure NewResult where
  ret : Option EmbeddedNATS
  err : Option GoError
  trace : List Event
deriving DecidableEq, Repr

/-- The function `NewEmbeddedNATS` (lines 40-50). -/
def NewEmbeddedNATS (w : World) : NewResult :=
  match w.GetFreePort with
  | .error err => { ret := none, err := some err, trace := [Event.GetFreePort] }
  | .ok port =>
    { ret := some
        { server := w.New { Host := "localhost", Port := port }
          Port := port
          Conn := none }
      err := none
      trace := [Event.GetFreePort, Event.New { Host := "localhost", Port := port }] }

/-- What `Start` and `Stop` leave behind: the returned error (`none` when nil, and
always `none` for `Stop`, which returns nothing), the harness after the call, the
library calls made on the calling goroutine, in order, and the calls made by the
goroutine the call launched, if it launched one.  The launched goroutine runs
concurrently with the caller; how its calls interleave with `trace` is not
modelled. -/
structure CallResult where
  err : Option GoError
  n : EmbeddedNATS
  trace : List Event
  spawned : List Event
deriving DecidableEq, Repr

/-- The body of the goroutine launched by `Start` (lines 55-59): run the server
and log the error it returns, if any. -/
def Start.goroutine (w : World) (n : EmbeddedNATS) : List Event :=
  match w.Run n.server with
  | some err =>
    [Event.Run n.server,
     Event.Printf (fmt.Sprintf "Error running embedded NATS server: %v" [.error err])]
  | none => [Event.Run n.server]

/-- The method `Start` (lines 53-75). -/
def Start (w : World) (n : EmbeddedNATS) : CallResult :=
  let launched := [Event.Go n.server]
  let probed := launched ++ [Event.ReadyForConnections n.server time.Minute]
  if !w.ReadyForConnections n.server time.Minute then
    { err := some (fmt.Errorf "NATS server not ready" [])
      n := n
      trace := probed
      spawned := Start.goroutine w n }
  else
    let url := fmt.Sprintf "nats://localhost:%d" [.int n.Port]
    let dialled := probed ++ [Event.Connect url]
    match w.Connect url with
    | .error err =>
      { err := some (fmt.Errorf "error connecting to NATS server at localhost port %d: %v"
          [.int n.Port, .error err])
        n := n
        trace := dialled
        spawned := Start.goroutine w n }
    | .ok conn =>
      { err := none
        n := { n with Conn := some conn }
        trace := dialled
        spawned := Start.goroutine w n }

/-- The method `Stop` (lines 78-81). -/
def Stop (n : EmbeddedNATS) : CallResult :=
  { err := none
    n := n
    trace := [Event.Close n.Conn, Event.Shutdown n.server]
    spawned := [] }

/-! ## Histories of calls -/

/-- A call on a harness: `Start` together with what the libraries answer during
it, or `Stop`. -/
inductive Call where
  | start (w : World)
  | stop

/-- The outcome of one call on a harness. -/
def Call.apply (n : EmbeddedNATS) : Call → CallResult
  | .start w => Start w n
  | .stop => Stop n

/-- The harness after a sequence of calls, made one after the other. -/
def runCalls (n : EmbeddedNATS) : List Call → EmbeddedNATS
  | [] => n
  | c :: cs => runCalls (c.apply n).n cs

/-- Whether some `Start` of the sequence, made on the harness as the calls before it
left it, returned nil. -/
def startSucceeded (n : EmbeddedNATS) : List Call → Bool
  | [] => false
  | .start w :: cs => (Start w n).err.isNone || startSucceeded (Start w n).n cs
  | .stop :: cs => startSucceeded (Stop n).n cs

/-- Whether `Stop` occurs in the sequence. -/
def stopCalled : List Call → Bool
  | [] => false
  | .start _ :: cs => stopCalled cs
  | .stop :: _ => true

/-- Whether the sequence leaves the harness started and not stopped: some `Start`
returned nil and no `Stop` has been called. -/
def startedNotStopped (n : EmbeddedNATS) (cs : List Call) : Bool :=
  startSucceeded n cs && !stopCalled cs

/-! ## Sample answers used to run the definitions -/

/-- Libraries that all succeed: port 4222 is free, the server is at address 1,
it runs without error, reports ready, and the client connects as object 7. -/
def worldOk : World :=
  { GetFreePort := .ok 4222
    New := fun _ => some { addr := 1 }
    Run := fun _ => none
    ReadyForConnections := fun _ _ => true
    Connect := fun _ => .ok { addr := 7 } }

/-- As `worldOk`, but the server never reports ready. -/
def worldNotReady : World :=
  { worldOk with ReadyForConnections := fun _ _ => false }

/-- As `worldOk`, but the client connection is refused. -/
def worldRefused : World :=
  { worldOk with Connect := fun _ => .error { Error := "nats: no servers available for connection" } }

/-- As `worldOk`, but no port is free. -/
def worldNoPort : World :=
  { worldOk with GetFreePort := .error { Error := "listen tcp: address already in use" } }

/-- As `worldOk`, but `gnatsd.Run` returns an error. -/
def worldRunFails : World :=
  { worldOk with Run := fun _ => some { Error := "listen tcp 127.0.0.1:4222: bind failed" } }

/-- The harness `NewEmbeddedNATS` builds in `worldOk`. -/
def harnessOk : EmbeddedNATS :=
  { server := some { addr := 1 }, Port := 4222, Conn := none }

/-! ## Formatting lemmas -/

theorem fmt.Sprintf_url (port : Int) :
    fmt.Sprintf "nats://localhost:%d" [.int port] = "nats://localhost:" ++ decimal port := by
  have h : fmt.doPrintf "nats://localhost:%d".toList [.int port]
      = "nats://localhost:".toList ++ ((decimal port).toList ++ []) := rfl
  unfold fmt.Sprintf
  rw [h, List.append_nil]
  rfl

theorem fmt.Errorf_connect (port : Int) (err : GoError) :
    (fmt.Errorf "error connecting to NATS server at localhost port %d: %v"
        [.int port, .error err]).Error
      = "error connecting to NATS server at localhost port " ++ decimal port ++ ": "
          ++ err.Error := by
  have h : fmt.doPrintf "error connecting to NATS server at localhost port %d: %v".toList
        [.int port, .error err]
      = "error connecting to NATS server at localhost port ".toList
          ++ ((decimal port).toList ++ (": ".toList ++ (err.Error.toList ++ []))) := rfl
  unfold fmt.Errorf fmt.Sprintf
  rw [h, List.append_nil]
  apply String.ext
  simp [String.toList, List.append_assoc]

theorem fmt.Sprintf_runError (err : GoError) :
    fmt.Sprintf "Error running embedded NATS server: %v" [.error err]
      = "Error running embedded NATS server: " ++ err.Error := by
  have h : fmt.doPrintf "Error running embedded NATS server: %v".toList [.error err]
      = "Error running embedded NATS server: ".toList ++ (err.Error.toList ++ []) := rfl
  unfold fmt.Sprintf
  rw [h, List.append_nil]
  rfl

theorem fmt.Errorf_notReady :
    fmt.Errorf "NATS server not ready" [] = { Error := "NATS server not ready" } := by
  decide

theorem time.Minute_eq : time.Minute = 60 * time.Second := rfl

theorem time.Second_eq : time.Second = 1000000000 := by decide

/-! ## The three ways through `Start` -/

/-- The URL `Start` dials. -/
theorem Start_url (n : EmbeddedNATS) :
    fmt.Sprintf "nats://localhost:%d" [.int n.Port] = "nats://localhost:" ++ decimal n.Port :=
  fmt.Sprintf_url n.Port

theorem Start_notReady (w : World) (n : EmbeddedNATS)
    (h : w.ReadyForConnections n.server time.Minute = false) :
    Start w n =
      { err := some { Error := "NATS server not ready" }
        n := n
        trace := [Event.Go n.server, Event.ReadyForConnections n.server time.Minute]
        spawned := Start.goroutine w n } := by
  simp [Start, h, fmt.Errorf_notReady]

theorem Start_refused (w : World) (n : EmbeddedNATS) (e : GoError)
    (h : w.ReadyForConnections n.server time.Minute = true)
    (hc : w.Connect ("nats://localhost:" ++ decimal n.Port) = .error e) :
    Start w n =
      { err := some { Error := "error connecting to NATS server at localhost port "
                        ++ decimal n.Port ++ ": " ++ e.Error }
        n := n
        trace := [Event.Go n.server, Event.ReadyForConnections n.server time.Minute,
                  Event.Connect ("nats://localhost:" ++ decimal n.Port)]
        spawned := Start.goroutine w n } := by
  have hm := fmt.Errorf_connect n.Port e
  have hE : fmt.Errorf "error connecting to NATS server at localhost port %d: %v"
      [.int n.Port, .error e]
      = { Error := "error connecting to NATS server at localhost port "
                        ++ decimal n.Port ++ ": " ++ e.Error } := by
    cases hx : fmt.Errorf "error connecting to NATS server at localhost port %d: %v"
      [.int n.Port, .error e]
    rw [hx] at hm
    simpa using hm
  simp only [Start, h, Start_url, hc, hE]
  rfl

theorem Start_connected (w : World) (n : EmbeddedNATS) (c : nats.Conn)
    (h : w.ReadyForConnections n.server time.Minute = true)
    (hc : w.Connect ("nats://localhost:" ++ decimal n.Port) = .ok c) :
    Start w n =
      { err := none
        n := { n with Conn := some c }
        trace := [Event.Go n.server, Event.ReadyForConnections n.server time.Minute,
                  Event.Connect ("nats://localhost:" ++ decimal n.Port)]
        spawned := Start.goroutine w n } := by
  simp only [Start, h, Start_url, hc]
  rfl

/-- Every run of `Start` is one of the three above. -/
theorem Start_cases (w : World) (n : EmbeddedNATS) :
    (w.ReadyForConnections n.server time.Minute = false)
    ∨ (w.ReadyForConnections n.server time.Minute = true
        ∧ ∃ e, w.Connect ("nats://localhost:" ++ decimal n.Port) = .error e)
    ∨ (w.ReadyForConnections n.server time.Minute = true
        ∧ ∃ c, w.Connect ("nats://localhost:" ++ decimal n.Port) = .ok c) := by
  cases h : w.ReadyForConnections n.server time.Minute
  · exact Or.inl rfl
  · cases hc : w.Connect ("nats://localhost:" ++ decimal n.Port) with
    | error e => exact Or.inr (Or.inl ⟨rfl, e, rfl⟩)
    | ok c => exact Or.inr (Or.inr ⟨rfl, c, rfl⟩)

/-! ## Construction -/

/-- C1: whatever the free-port allocator answers, `NewEmbeddedNATS` returns
exactly one nil result.  When the allocator fails with `e` the harness is nil and
the error is `e` itself; when it succeeds the harness is non-nil and the error is
nil; never both nil, never both non-nil. -/
theorem C1_new_exactly_one_nil (w : World) :
    (∀ e, w.GetFreePort = .error e →
        (NewEmbeddedNATS w).ret = none ∧ (NewEmbeddedNATS w).err = some e)
    ∧ (∀ p, w.GetFreePort = .ok p →
        (NewEmbeddedNATS w).ret ≠ none ∧ (NewEmbeddedNATS w).err = none)
    ∧ (((NewEmbeddedNATS w).ret = none ∧ (NewEmbeddedNATS w).err ≠ none)
        ∨ ((NewEmbeddedNATS w).ret ≠ none ∧ (NewEmbeddedNATS w).err = none)) := by
  unfold NewEmbeddedNATS
  cases h : w.GetFreePort with
  | error e => simp
  | ok p => simp

theorem C1_new_exactly_one_nil_witness :
    ((NewEmbeddedNATS worldNoPort).ret = none
      ∧ (NewEmbeddedNATS worldNoPort).err
          = some { Error := "listen tcp: address already in use" })
    ∧ ((NewEmbeddedNATS worldOk).ret ≠ none ∧ (NewEmbeddedNATS worldOk).err = none) :=
  ⟨(C1_new_exactly_one_nil worldNoPort).1 _ rfl,
   (C1_new_exactly_one_nil worldOk).2.1 4222 rfl⟩

/-- C2: when the allocator returns port `p`, the harness `NewEmbeddedNATS` returns
has `Port = p`, holds the server that `gnatsd.New` built from host "localhost" and
port `p`, and has a nil `Conn`.  The only library calls made are the allocator and
then the server constructor: the server is not run, readiness is not probed and no
client connects. -/
theorem C2_new_fields (w : World) (p : Int) (h : w.GetFreePort = .ok p) :
    (NewEmbeddedNATS w).ret
        = some { server := w.New { Host := "localhost", Port := p }, Port := p, Conn := none }
    ∧ (NewEmbeddedNATS w).trace
        = [Event.GetFreePort, Event.New { Host := "localhost", Port := p }]
    ∧ (∀ s, Event.Go s ∉ (NewEmbeddedNATS w).trace)
    ∧ (∀ s, Event.Run s ∉ (NewEmbeddedNATS w).trace)
    ∧ (∀ s d, Event.ReadyForConnections s d ∉ (NewEmbeddedNATS w).trace)
    ∧ (∀ url, Event.Connect url ∉ (NewEmbeddedNATS w).trace) := by
  simp [NewEmbeddedNATS, h]

theorem C2_new_fields_witness :
    (NewEmbeddedNATS worldOk).ret
        = some { server := some { addr := 1 }, Port := 4222, Conn := none }
    ∧ (NewEmbeddedNATS worldOk).trace
        = [Event.GetFreePort, Event.New { Host := "localhost", Port := 4222 }] :=
  ⟨(C2_new_fields worldOk 4222 rfl).1, (C2_new_fields worldOk 4222 rfl).2.1⟩

/-! ## Start -/

/-- C3: `Start` returns nil exactly when the readiness probe answers true and the
connect to "nats://localhost:<Port>" succeeds; then `Conn` is the handle that
connect returned.  What `gnatsd.Run` returns in the goroutine changes nothing in
the outcome of `Start`. -/
theorem C3_start_success_iff (w : World) (n : EmbeddedNATS) :
    ((Start w n).err = none ↔
        (w.ReadyForConnections n.server time.Minute = true
          ∧ ∃ c, w.Connect ("nats://localhost:" ++ decimal n.Port) = .ok c))
    ∧ (∀ c, w.ReadyForConnections n.server time.Minute = true →
        w.Connect ("nats://localhost:" ++ decimal n.Port) = .ok c →
        (Start w n).n.Conn = some c)
    ∧ (∀ r, (Start { w with Run := r } n).err = (Start w n).err
          ∧ (Start { w with Run := r } n).n = (Start w n).n
          ∧ (Start { w with Run := r } n).trace = (Start w n).trace) := by
  refine ⟨?_, ?_, ?_⟩
  · rcases Start_cases w n with h | ⟨h, e, hc⟩ | ⟨h, c, hc⟩
    · rw [Start_notReady w n h]; simp [h]
    · rw [Start_refused w n e h hc]; simp [hc]
    · rw [Start_connected w n c h hc]; simp [h, hc]
  · intro c h hc
    rw [Start_connected w n c h hc]
  · intro r
    rcases Start_cases w n with h | ⟨h, e, hc⟩ | ⟨h, c, hc⟩
    · rw [Start_notReady w n h, Start_notReady { w with Run := r } n h]
      exact ⟨rfl, rfl, rfl⟩
    · rw [Start_refused w n e h hc, Start_refused { w with Run := r } n e h hc]
      exact ⟨rfl, rfl, rfl⟩
    · rw [Start_connected w n c h hc, Start_connected { w with Run := r } n c h hc]
      exact ⟨rfl, rfl, rfl⟩

theorem C3_start_success_iff_witness :
    (Start worldOk harnessOk).err = none
    ∧ (Start worldOk harnessOk).n.Conn = some { addr := 7 }
    ∧ (Start { worldOk with Run := fun _ => some { Error := "listener closed" } } harnessOk).err
        = (Start worldOk harnessOk).err :=
  ⟨(C3_start_success_iff worldOk harnessOk).1.2 ⟨rfl, _, rfl⟩,
   (C3_start_success_iff worldOk harnessOk).2.1 _ rfl rfl,
   ((C3_start_success_iff worldOk harnessOk).2.2 _).1⟩

/-- C4: when the readiness probe answers false, `Start` returns the error with text
"NATS server not ready" and makes no connect call.  A connect call appears among
the calls of `Start` only when the probe answered true, and the probe call comes
before it. -/
theorem C4_not_ready (w : World) (n : EmbeddedNATS) :
    (w.ReadyForConnections n.server time.Minute = false →
        (Start w n).err = some { Error := "NATS server not ready" }
        ∧ ∀ url, Event.Connect url ∉ (Start w n).trace)
    ∧ (∀ url, Event.Connect url ∈ (Start w n).trace →
        w.ReadyForConnections n.server time.Minute = true
        ∧ ∃ before, (Start w n).trace = before ++ [Event.Connect url]
            ∧ Event.ReadyForConnections n.server time.Minute ∈ before
            ∧ ∀ u, Event.Connect u ∉ before) := by
  rcases Start_cases w n with h | ⟨h, e, hc⟩ | ⟨h, c, hc⟩
  · rw [Start_notReady w n h]; simp [h]
  · rw [Start_refused w n e h hc]
    refine ⟨fun hf => absurd (h.symm.trans hf) (by decide), ?_⟩
    intro url hu
    simp at hu
    subst hu
    exact ⟨h, [Event.Go n.server, Event.ReadyForConnections n.server time.Minute], by simp⟩
  · rw [Start_connected w n c h hc]
    refine ⟨fun hf => absurd (h.symm.trans hf) (by decide), ?_⟩
    intro url hu
    simp at hu
    subst hu
    exact ⟨h, [Event.Go n.server, Event.ReadyForConnections n.server time.Minute], by simp⟩

theorem C4_not_ready_witness :
    (Start worldNotReady harnessOk).err = some { Error := "NATS server not ready" }
    ∧ (∀ url, Event.Connect url ∉ (Start worldNotReady harnessOk).trace)
    ∧ worldOk.ReadyForConnections harnessOk.server time.Minute = true :=
  ⟨((C4_not_ready worldNotReady harnessOk).1 rfl).1,
   ((C4_not_ready worldNotReady harnessOk).1 rfl).2,
   ((C4_not_ready worldOk harnessOk).2 "nats://localhost:4222" (by decide)).1⟩

/-- C5: when the server reports ready and the connect fails with cause `e`, `Start`
returns the error whose text is
"error connecting to NATS server at localhost port <Port>: <e>", with `<Port>` the
base 10 rendering of the `Port` field and `<e>` the text of the cause. -/
theorem C5_connect_error (w : World) (n : EmbeddedNATS) (e : GoError)
    (h : w.ReadyForConnections n.server time.Minute = true)
    (hc : w.Connect ("nats://localhost:" ++ decimal n.Port) = .error e) :
    (Start w n).err
      = some { Error := "error connecting to NATS server at localhost port "
                          ++ decimal n.Port ++ ": " ++ e.Error } := by
  rw [Start_refused w n e h hc]

theorem C5_connect_error_witness :
    (Start worldRefused harnessOk).err
      = some { Error := "error connecting to NATS server at localhost port "
                          ++ decimal 4222 ++ ": "
                          ++ "nats: no servers available for connection" } :=
  C5_connect_error worldRefused harnessOk
    { Error := "nats: no servers available for connection" } rfl rfl

/-! ## Stop -/

/-- C6: on every harness `Stop` makes exactly two library calls, in this order:
`Close` on the handle stored in `Conn`, then `Shutdown` on the server.  Nothing is
checked first: on a harness whose `Conn` is nil the first call is `Close` on the nil
handle, a second `Stop` repeats the same two calls, and after a `Start` that
returned nil the handle closed is the one that `Start` stored. -/
theorem C6_stop_effects (n : EmbeddedNATS) :
    (Stop n).trace = [Event.Close n.Conn, Event.Shutdown n.server]
    ∧ (n.Conn = none → (Stop n).trace = [Event.Close none, Event.Shutdown n.server])
    ∧ (Stop (Stop n).n).trace = (Stop n).trace
    ∧ (∀ w, (Start w n).err = none →
        (Stop (Start w n).n).trace
          = [Event.Close (Start w n).n.Conn, Event.Shutdown n.server]
        ∧ ∃ c, w.Connect ("nats://localhost:" ++ decimal n.Port) = .ok c
            ∧ (Start w n).n.Conn = some c) := by
  refine ⟨rfl, ?_, rfl, ?_⟩
  · intro h
    simp [Stop, h]
  · intro w hs
    rcases Start_cases w n with h | ⟨h, e, hc⟩ | ⟨h, c, hc⟩
    · rw [Start_notReady w n h] at hs; simp at hs
    · rw [Start_refused w n e h hc] at hs; simp at hs
    · rw [Start_connected w n c h hc]
      exact ⟨rfl, c, hc, rfl⟩

theorem C6_stop_effects_witness :
    (Stop harnessOk).trace = [Event.Close none, Event.Shutdown (some { addr := 1 })]
    ∧ (Stop (Start worldOk harnessOk).n).trace
        = [Event.Close (Start worldOk harnessOk).n.Conn, Event.Shutdown harnessOk.server] :=
  ⟨(C6_stop_effects harnessOk).2.1 rfl,
   ((C6_stop_effects harnessOk).2.2.2 worldOk (by decide)).1⟩

/-! ## Frame and histories -/

theorem Start_frame (w : World) (n : EmbeddedNATS) :
    (Start w n).n.Port = n.Port ∧ (Start w n).n.server = n.server := by
  rcases Start_cases w n with h | ⟨h, e, hc⟩ | ⟨h, c, hc⟩
  · rw [Start_notReady w n h]; exact ⟨rfl, rfl⟩
  · rw [Start_refused w n e h hc]; exact ⟨rfl, rfl⟩
  · rw [Start_connected w n c h hc]; exact ⟨rfl, rfl⟩

theorem Start_failed_frame (w : World) (n : EmbeddedNATS) (h : (Start w n).err ≠ none) :
    (Start w n).n = n := by
  rcases Start_cases w n with hr | ⟨hr, e, hc⟩ | ⟨hr, c, hc⟩
  · rw [Start_notReady w n hr]
  · rw [Start_refused w n e hr hc]
  · rw [Start_connected w n c hr hc] at h; exact absurd rfl h

theorem Start_ok_Conn (w : World) (n : EmbeddedNATS) (h : (Start w n).err = none) :
    (Start w n).n.Conn ≠ none := by
  rcases Start_cases w n with hr | ⟨hr, e, hc⟩ | ⟨hr, c, hc⟩
  · rw [Start_notReady w n hr] at h; simp at h
  · rw [Start_refused w n e hr hc] at h; simp at h
  · rw [Start_connected w n c hr hc]; simp

theorem Call.apply_frame (c : Call) (n : EmbeddedNATS) :
    (c.apply n).n.Port = n.Port ∧ (c.apply n).n.server = n.server := by
  cases c with
  | start w => exact Start_frame w n
  | stop => exact ⟨rfl, rfl⟩

theorem runCalls_frame (cs : List Call) (n : EmbeddedNATS) :
    (runCalls n cs).Port = n.Port ∧ (runCalls n cs).server = n.server := by
  induction cs generalizing n with
  | nil => exact ⟨rfl, rfl⟩
  | cons c cs ih =>
    have hc := Call.apply_frame c n
    have hr := ih (c.apply n).n
    exact ⟨hr.1.trans hc.1, hr.2.trans hc.2⟩

theorem runCalls_Conn (cs : List Call) (n : EmbeddedNATS) :
    (runCalls n cs).Conn ≠ none ↔ (n.Conn ≠ none ∨ startSucceeded n cs = true) := by
  induction cs generalizing n with
  | nil => simp [runCalls, startSucceeded]
  | cons c cs ih =>
    cases c with
    | stop =>
      have hr := ih (Stop n).n
      simpa [runCalls, startSucceeded, Call.apply, Stop] using hr
    | start w =>
      have hr := ih (Start w n).n
      simp only [runCalls, startSucceeded, Call.apply, Bool.or_eq_true]
      rw [hr]
      cases he : (Start w n).err with
      | none =>
        have hk := Start_ok_Conn w n he
        simp [hk]
      | some e =>
        have hk := Start_failed_frame w n (by rw [he]; simp)
        rw [hk]
        simp

/-- C7 (as stated, refuted): in `worldOk`, construct the harness, `Start` it (it
returns nil) and `Stop` it.  `Stop` has been called, yet `Conn` is still the handle
`Start` stored, so `Conn` is non-nil in a state that is not "started and not yet
stopped". -/
theorem C7_counterexample :
    (NewEmbeddedNATS worldOk).ret = some harnessOk
    ∧ (Start worldOk harnessOk).err = none
    ∧ (runCalls harnessOk [Call.start worldOk, Call.stop]).Conn = some { addr := 7 }
    ∧ stopCalled [Call.start worldOk, Call.stop] = true
    ∧ ¬ ((runCalls harnessOk [Call.start worldOk, Call.stop]).Conn ≠ none
          ↔ startedNotStopped harnessOk [Call.start worldOk, Call.stop] = true)
    ∧ (Stop (Start worldOk harnessOk).n).n.Conn ≠ none := by
  decide

/-- C7 (amended): in every state reached from `NewEmbeddedNATS` by calls to `Start`
and `Stop`, `Conn` is non-nil exactly when some `Start` has returned nil, whether or
not `Stop` has been called since; `Stop` leaves `Conn` as it found it, and `Conn` is
nil as long as no `Start` has succeeded. -/
theorem C7_conn_nonnil_iff_started (w0 : World) (n0 : EmbeddedNATS) (cs : List Call)
    (h0 : (NewEmbeddedNATS w0).ret = some n0) :
    ((runCalls n0 cs).Conn ≠ none ↔ startSucceeded n0 cs = true)
    ∧ (∀ n, (Stop n).n.Conn = n.Conn) := by
  have hn : n0.Conn = none := by
    unfold NewEmbeddedNATS at h0
    cases hp : w0.GetFreePort with
    | error e => rw [hp] at h0; simp at h0
    | ok p =>
      rw [hp] at h0
      simp at h0
      rw [← h0]
  refine ⟨?_, fun n => rfl⟩
  rw [runCalls_Conn cs n0]
  simp [hn]

theorem C7_conn_nonnil_iff_started_witness :
    ((runCalls harnessOk [Call.stop, Call.start worldRefused, Call.start worldOk, Call.stop]).Conn
        ≠ none
      ↔ startSucceeded harnessOk
          [Call.stop, Call.start worldRefused, Call.start worldOk, Call.stop] = true)
    ∧ (runCalls harnessOk [Call.stop, Call.start worldRefused, Call.start worldOk, Call.stop]).Conn
        = some { addr := 7 } :=
  ⟨(C7_conn_nonnil_iff_started worldOk harnessOk
      [Call.stop, Call.start worldRefused, Call.start worldOk, Call.stop] (by decide)).1,
   by decide⟩

/-- C8: `Start` and `Stop` leave `Port` and the server handle as they were, whatever
the libraries answer.  So in every state reached from `NewEmbeddedNATS` by calls to
`Start` and `Stop`, `Port` is the port the allocator returned and the server is the
one `gnatsd.New` built for host "localhost" and that `Port`. -/
theorem C8_port_server_frame (w0 : World) (n0 : EmbeddedNATS) (cs : List Call)
    (h0 : (NewEmbeddedNATS w0).ret = some n0) :
    (∀ w n, (Start w n).n.Port = n.Port ∧ (Start w n).n.server = n.server)
    ∧ (∀ n, (Stop n).n.Port = n.Port ∧ (Stop n).n.server = n.server)
    ∧ w0.GetFreePort = .ok (runCalls n0 cs).Port
    ∧ (runCalls n0 cs).Port = n0.Port
    ∧ (runCalls n0 cs).server = n0.server
    ∧ (runCalls n0 cs).server
        = w0.New { Host := "localhost", Port := (runCalls n0 cs).Port } := by
  have hf := runCalls_frame cs n0
  refine ⟨Start_frame, fun n => ⟨rfl, rfl⟩, ?_, hf.1, hf.2, ?_⟩
  · rw [hf.1]
    unfold NewEmbeddedNATS at h0
    cases hp : w0.GetFreePort with
    | error e => rw [hp] at h0; simp at h0
    | ok p =>
      rw [hp] at h0
      simp at h0
      rw [← h0]
  · rw [hf.1, hf.2]
    unfold NewEmbeddedNATS at h0
    cases hp : w0.GetFreePort with
    | error e => rw [hp] at h0; simp at h0
    | ok p =>
      rw [hp] at h0
      simp at h0
      rw [← h0]

theorem C8_port_server_frame_witness :
    (runCalls harnessOk [Call.start worldNotReady, Call.start worldOk, Call.stop]).Port = 4222
    ∧ (runCalls harnessOk [Call.start worldNotReady, Call.start worldOk, Call.stop]).server
        = worldOk.New { Host := "localhost", Port := 4222 } :=
  ⟨(C8_port_server_frame worldOk harnessOk
      [Call.start worldNotReady, Call.start worldOk, Call.stop] (by decide)).2.2.2.1,
   (C8_port_server_frame worldOk harnessOk
      [Call.start worldNotReady, Call.start worldOk, Call.stop] (by decide)).2.2.2.2.2⟩

/-- What the goroutine of `Start` does: it calls `gnatsd.Run` on the server of the
harness and, if that returns an error, logs it. -/
theorem Start.goroutine_eq (w : World) (n : EmbeddedNATS) :
    Start.goroutine w n
      = Event.Run n.server ::
          (match w.Run n.server with
           | some err => [Event.Printf ("Error running embedded NATS server: " ++ err.Error)]
           | none => []) := by
  unfold Start.goroutine
  cases w.Run n.server with
  | none => rfl
  | some err => simp only [fmt.Sprintf_runError]

theorem Start_spawned (w : World) (n : EmbeddedNATS) :
    (Start w n).spawned = Start.goroutine w n := by
  rcases Start_cases w n with h | ⟨h, e, hc⟩ | ⟨h, c, hc⟩
  · rw [Start_notReady w n h]
  · rw [Start_refused w n e h hc]
  · rw [Start_connected w n c h hc]

theorem Start_trace (w : World) (n : EmbeddedNATS) :
    (Start w n).trace
        = [Event.Go n.server, Event.ReadyForConnections n.server (60 * time.Second)]
          ++ (if w.ReadyForConnections n.server time.Minute
              then [Event.Connect ("nats://localhost:" ++ decimal n.Port)] else []) := by
  rcases Start_cases w n with h | ⟨h, e, hc⟩ | ⟨h, c, hc⟩
  · rw [Start_notReady w n h, h]; rfl
  · rw [Start_refused w n e h hc, h]; rfl
  · rw [Start_connected w n c h hc, h]; rfl

/-- C9: every call of `Start` executes the `go` statement once, and the goroutine
it launches calls `gnatsd.Run` once, on the server of the harness, and does nothing
else but log the error `Run` returns, if any.  The caller then probes readiness
once with a timeout of 60 seconds, then calls connect once if the probe answered
true and not at all otherwise.  Nothing is tried again: a false probe, or a failed
connect, makes `Start` return an error. -/
theorem C9_start_calls (w : World) (n : EmbeddedNATS) :
    (Start w n).trace
        = [Event.Go n.server, Event.ReadyForConnections n.server (60 * time.Second)]
          ++ (if w.ReadyForConnections n.server time.Minute
              then [Event.Connect ("nats://localhost:" ++ decimal n.Port)] else [])
    ∧ time.Second = 1000000000
    ∧ (Start w n).trace.countP Event.isGo = 1
    ∧ (Start w n).spawned = Start.goroutine w n
    ∧ (Start w n).spawned
        = Event.Run n.server ::
            (match w.Run n.server with
             | some err =>
               [Event.Printf ("Error running embedded NATS server: " ++ err.Error)]
             | none => [])
    ∧ (Start w n).spawned.filter Event.isRun = [Event.Run n.server]
    ∧ (∀ s, Event.Go s ∈ (Start w n).trace →
        (Start w n).spawned.filter Event.isRun = [Event.Run s])
    ∧ (Start w n).spawned.countP Event.isRun = 1
    ∧ (Start w n).trace.countP Event.isProbe = 1
    ∧ (Start w n).trace.countP Event.isConnect ≤ 1
    ∧ (w.ReadyForConnections n.server time.Minute = false → (Start w n).err ≠ none)
    ∧ (∀ e, w.Connect ("nats://localhost:" ++ decimal n.Port) = .error e →
        (Start w n).err ≠ none) := by
  have htr := Start_trace w n
  have hsp : (Start w n).spawned
      = Event.Run n.server ::
          (match w.Run n.server with
           | some err =>
             [Event.Printf ("Error running embedded NATS server: " ++ err.Error)]
           | none => []) := by
    rw [Start_spawned, Start.goroutine_eq]
  have hfil : (Start w n).spawned.filter Event.isRun = [Event.Run n.server] := by
    rw [hsp]
    cases w.Run n.server <;> simp [Event.isRun]
  have hcnt : (Start w n).spawned.countP Event.isRun = 1 := by
    rw [List.countP_eq_length_filter, hfil]
    rfl
  have hgo : ∀ s, Event.Go s ∈ (Start w n).trace → s = n.server := by
    intro s hs
    rw [htr] at hs
    cases hr : w.ReadyForConnections n.server time.Minute <;> simp [hr] at hs <;> exact hs
  refine ⟨htr, time.Second_eq, ?_, Start_spawned w n, hsp, hfil, ?_, hcnt, ?_, ?_, ?_, ?_⟩
  · rw [htr]
    cases w.ReadyForConnections n.server time.Minute <;> simp [Event.isGo]
  · intro s hs
    rw [hgo s hs]
    exact hfil
  · rw [htr]
    cases w.ReadyForConnections n.server time.Minute <;> simp [Event.isProbe]
  · rw [htr]
    cases w.ReadyForConnections n.server time.Minute <;> simp [Event.isConnect]
  · intro h
    rw [Start_notReady w n h]
    simp
  · intro e hc
    rcases Start_cases w n with h | ⟨h, e2, hc2⟩ | ⟨h, c, hc2⟩
    · rw [Start_notReady w n h]; simp
    · rw [Start_refused w n e2 h hc2]; simp
    · rw [hc] at hc2; cases hc2

theorem C9_start_calls_witness :
    (Start worldNotReady harnessOk).err ≠ none
    ∧ (Start worldRefused harnessOk).err ≠ none
    ∧ (Start worldOk harnessOk).trace
        = [Event.Go (some { addr := 1 }),
           Event.ReadyForConnections (some { addr := 1 }) 60000000000,
           Event.Connect "nats://localhost:4222"]
    ∧ (Start worldRunFails harnessOk).spawned
        = [Event.Run (some { addr := 1 }),
           Event.Printf ("Error running embedded NATS server: "
              ++ "listen tcp 127.0.0.1:4222: bind failed")]
    ∧ (Start worldOk harnessOk).spawned.filter Event.isRun
        = [Event.Run (some { addr := 1 })] :=
  ⟨(C9_start_calls worldNotReady harnessOk).2.2.2.2.2.2.2.2.2.2.1 rfl,
   (C9_start_calls worldRefused harnessOk).2.2.2.2.2.2.2.2.2.2.2 _ rfl,
   by decide,
   (C9_start_calls worldRunFails harnessOk).2.2.2.2.1,
   (C9_start_calls worldOk harnessOk).2.2.2.2.2.2.1 _ (by decide)⟩

/-- C10: a `Start` that returns an error leaves the harness as it was: `Conn`,
`Port` and the server handle are unchanged.  `Conn` changes only when `Start`
returns nil. -/
theorem C10_failed_start_atomic (w : World) (n : EmbeddedNATS)
    (h : (Start w n).err ≠ none) :
    (Start w n).n.Conn = n.Conn ∧ (Start w n).n.Port = n.Port
    ∧ (Start w n).n.server = n.server ∧ (Start w n).n = n := by
  have hk := Start_failed_frame w n h
  rw [hk]
  exact ⟨rfl, rfl, rfl, rfl⟩

theorem C10_failed_start_atomic_witness :
    (Start worldNotReady harnessOk).err ≠ none
    ∧ (Start worldNotReady harnessOk).n = harnessOk
    ∧ (Start worldRefused harnessOk).n = harnessOk :=
  ⟨by decide, (C10_failed_start_atomic worldNotReady harnessOk (by decide)).2.2.2,
   (C10_failed_start_atomic worldRefused harnessOk (by decide)).2.2.2⟩

/-! ## The definitions evaluated on the sample answers -/

theorem eval_Sprintf_url :
    fmt.Sprintf "nats://localhost:%d" [.int 4222] = "nats://localhost:4222" := by
  decide

theorem eval_decimal_negative : decimal (-17) = "-17" := by
  decide

theorem eval_Minute : time.Minute = 60000000000 := by
  decide

theorem eval_New :
    NewEmbeddedNATS worldOk
      = { ret := some harnessOk
          err := none
          trace := [Event.GetFreePort, Event.New { Host := "localhost", Port := 4222 }] } := by
  decide

theorem eval_Start_ok :
    Start worldOk harnessOk
      = { err := none
          n := { harnessOk with Conn := some { addr := 7 } }
          trace := [Event.Go (some { addr := 1 }),
                    Event.ReadyForConnections (some { addr := 1 }) 60000000000,
                    Event.Connect "nats://localhost:4222"]
          spawned := [Event.Run (some { addr := 1 })] } := by
  decide

theorem eval_Start_refused :
    (Start worldRefused harnessOk).err
      = some { Error := "error connecting to NATS server at localhost port 4222: "
                          ++ "nats: no servers available for connection" } := by
  decide

theorem eval_goroutine :
    Start.goroutine { worldOk with Run := fun _ => some { Error := "boom" } } harnessOk
      = [Event.Run (some { addr := 1 }),
         Event.Printf "Error running embedded NATS server: boom"] := by
  decide
